import Mathlib

/-!
Shallow embedding of `aws-website-deployer.py` (class `AWSWebsiteDeployer` and
the relevant part of `main`).  Pure helpers become Lean functions; the calls to
remote AWS services are modelled by environments that record, for each call the
code makes, the outcome the remote service would produce, and the functions
return traces of the requests the code issues plus the value the Python
function returns.
-/

namespace AWSWebsiteDeployer

/-! ## Character classes used by the domain regex (ASCII, as in Python `re`) -/

/-- Python character class `[a-zA-Z0-9]`. -/
def isAlnum (c : Char) : Bool := c.isAlpha || c.isDigit

/-- Python character class `[a-zA-Z0-9-]`. -/
def isLabelChar (c : Char) : Bool := isAlnum c || c == '-'

/-!
## `validate_domain` (source lines 81–86)

The source checks `re.match(r'^[a-zA-Z0-9][a-zA-Z0-9-]{1,61}[a-zA-Z0-9]\.[a-zA-Z]{2,}$', domain)`.
Since neither `[a-zA-Z0-9-]` nor `[a-zA-Z]` contains `'.'`, a matching string
decomposes uniquely as `label ++ '.' ++ tld`: the label is the maximal
dot-free prefix.  The label piece `[a-zA-Z0-9][a-zA-Z0-9-]{1,61}[a-zA-Z0-9]`
is exactly: length between 3 and 63, every character in `[a-zA-Z0-9-]`, and
the first and last characters in `[a-zA-Z0-9]` (the first class is contained
in the second).  Python's `$` (without `re.MULTILINE`) also matches just
before a single newline at the very end of the string, so the regex accepts
`m ++ "\n"` exactly when it accepts `m`.
-/

/-- Matcher for the regex body `^[a-zA-Z0-9][a-zA-Z0-9-]{1,61}[a-zA-Z0-9]\.[a-zA-Z]{2,}$`
at a true end of string. -/
def validDomainCore (cs : List Char) : Bool :=
  let label := cs.takeWhile (fun c => c != '.')
  match cs.dropWhile (fun c => c != '.') with
  | '.' :: tld =>
      decide (3 ≤ label.length) && decide (label.length ≤ 63) &&
      label.all isLabelChar &&
      (match label.head? with | some c => isAlnum c | none => false) &&
      (match label.getLast? with | some c => isAlnum c | none => false) &&
      decide (2 ≤ tld.length) && tld.all Char.isAlpha
  | _ => false

/-- Model of `validate_domain`: returns `true` when the run proceeds and `false` when the
source calls `sys.exit(1)` ("Invalid domain name format").  The second disjunct
is Python's `$`-before-trailing-newline behaviour. -/
def validate_domain (domain : String) : Bool :=
  let cs := domain.toList
  validDomainCore cs ||
    (match cs.getLast? with
     | some c => c == '\n' && validDomainCore cs.dropLast
     | none => false)

/-!
## `get_stack_name` (source lines 88–90)
`return f"website-{domain.replace('.', '-')}"`
-/

/-- Python single-character `str.replace(old, new)`: left-to-right scan
replacing every occurrence. -/
def pyReplaceChar (old new : Char) : List Char → List Char
  | [] => []
  | c :: cs =>
      if c = old then new :: pyReplaceChar old new cs
      else c :: pyReplaceChar old new cs

/-- Model of `get_stack_name`: derive the CloudFormation stack name from the domain. -/
def get_stack_name (domain : String) : String :=
  "website-" ++ String.mk (pyReplaceChar '.' '-' domain.toList)

/-!
## `get_content_type` (source lines 443–461)
`ext = os.path.splitext(filename)[1].lower()`, then a fixed dict lookup with
default `'binary/octet-stream'`.
-/

/-- The extension component of `os.path.splitext` for a bare file name (no
path separators): everything from the last `'.'` on, except that a dot with
only dots before it (leading dots of the name) does not start an extension. -/
def splitextExt (filename : String) : String :=
  let cs := filename.toList
  let afterRev := cs.reverse.takeWhile (fun c => c != '.')
  if afterRev.length = cs.length then ""
  else
    let before := cs.take (cs.length - afterRev.length - 1)
    if before.all (fun c => c == '.') then ""
    else String.mk ('.' :: afterRev.reverse)

/-- Python `str.lower()` restricted to what the source feeds it: a
character-wise lowering (ASCII letters map to lowercase). -/
def pyLower (s : String) : String :=
  String.mk (s.toList.map Char.toLower)

/-- The static extension table from the source. -/
def contentTypes : List (String × String) :=
  [ (".html", "text/html"),
    (".css", "text/css"),
    (".js", "application/javascript"),
    (".json", "application/json"),
    (".png", "image/png"),
    (".jpg", "image/jpeg"),
    (".jpeg", "image/jpeg"),
    (".gif", "image/gif"),
    (".svg", "image/svg+xml"),
    (".ico", "image/x-icon"),
    (".pdf", "application/pdf"),
    (".txt", "text/plain"),
    (".xml", "application/xml") ]

/-- Model of `get_content_type`: fixed table on the lowercased extension, defaulting to
the generic binary type. -/
def get_content_type (filename : String) : String :=
  let ext := pyLower (splitextExt filename)
  (contentTypes.lookup ext).getD "binary/octet-stream"

/-!
## Python `in` on strings (substring test), used by `'does not exist' in str(e)`
-/

/-- Whether the first list is a prefix of the second (character lists). -/
def isPrefixL : List Char → List Char → Bool
  | [], _ => true
  | _ :: _, [] => false
  | a :: as, b :: bs => a == b && isPrefixL as bs

/-- Whether the first list occurs contiguously inside the second. -/
def hasInfixL (needle : List Char) : List Char → Bool
  | [] => isPrefixL needle []
  | b :: bs => isPrefixL needle (b :: bs) || hasInfixL needle bs

/-- Python `needle in hay` for strings. -/
def pyIn (needle hay : String) : Bool := hasInfixL needle.toList hay.toList

/-!
## Outcomes of remote service calls

Each boto3 call the code makes is modelled by the outcome the remote service
produces: a normal return, a `botocore.exceptions.ClientError` carrying the
message `str(e)` the handlers inspect, or some other exception (connection
errors, `WaiterError`, ...), which no `except ClientError` clause catches.
-/

inductive CallOutcome where
  | ok
  | clientError (msg : String)
  | otherError
deriving DecidableEq, Repr

/-- Modelled from the spec: a waiter polls the resource's status; each poll
reports a terminal success status, a terminal failure status, or an
in-progress status. -/
inductive PollStatus where
  | success
  | failed
  | pending
deriving DecidableEq, Repr

inductive WaitOutcome where
  | ok
  | errFailure
  | errTimeout
deriving DecidableEq, Repr

/-- Modelled from the spec: the waiter body (`Waiter` in the glossary is "a
polling helper that blocks until a named resource reaches a terminal status or
a bounded attempt count is exhausted").  `poll i` is the status the service
reports on the `i`-th poll; the second component counts polls performed.
Terminal failure and attempt exhaustion both raise (`errFailure`/`errTimeout`),
success returns normally. -/
def waiterGo (poll : Nat → PollStatus) : Nat → Nat → WaitOutcome × Nat
  | _, 0 => (.errTimeout, 0)
  | i, fuel + 1 =>
      match poll i with
      | .success => (.ok, 1)
      | .failed => (.errFailure, 1)
      | .pending =>
          let r := waiterGo poll (i + 1) fuel
          (r.1, r.2 + 1)

/-- Run a waiter with `maxAttempts` as the attempt ceiling. -/
def waiterRun (poll : Nat → PollStatus) (maxAttempts : Nat) : WaitOutcome × Nat :=
  waiterGo poll 0 maxAttempts

/-!
## `deploy_stack` (source lines 281–346)
-/

/-- Environment for one `deploy_stack` run: outcome of `describe_stacks`, of
`update_stack`, of `create_stack`, and the status stream the waiter polls. -/
structure DeployEnv where
  describeStacks : CallOutcome
  updateStack : CallOutcome
  createStack : CallOutcome
  poll : Nat → PollStatus

/-- Trace and return value of one `deploy_stack` run.  `submittedUpdate` /
`submittedCreate` record that the corresponding stack submission call was
issued (even if it then raised); `waiterCalls` records each `waiter.wait`
with its `(Delay, MaxAttempts)` configuration. -/
structure DeployResult where
  stackNameUsed : String
  submittedUpdate : Bool
  submittedCreate : Bool
  waiterCalls : List (Nat × Nat)
  success : Bool
deriving DecidableEq, Repr

/-- Shared tail of `deploy_stack`: the waiter (Delay 30, MaxAttempts 120) and
the outer `except Exception` that turns any raise into `return False`. -/
def deployWait (env : DeployEnv) (name : String) (up cr : Bool) : DeployResult :=
  match (waiterRun env.poll 120).1 with
  | .ok => ⟨name, up, cr, [(30, 120)], true⟩
  | _ => ⟨name, up, cr, [(30, 120)], false⟩

/-- Model of `deploy_stack`: describe the stack by its derived name; on success submit
`update_stack`; a `ClientError` whose message contains `'does not exist'`
(whether from `describe_stacks` or from `update_stack`, both inside the inner
`try`) routes to `create_stack`; any other `ClientError` is re-raised and any
other exception propagates, both landing in the outer `except Exception`
which returns `False`. -/
def deploy_stack (domain : String) (env : DeployEnv) : DeployResult :=
  let name := get_stack_name domain
  match env.describeStacks with
  | .ok =>
      match env.updateStack with
      | .ok => deployWait env name true false
      | .clientError msg =>
          if pyIn "does not exist" msg then
            match env.createStack with
            | .ok => deployWait env name true true
            | _ => ⟨name, true, true, [], false⟩
          else ⟨name, true, false, [], false⟩
      | .otherError => ⟨name, true, false, [], false⟩
  | .clientError msg =>
      if pyIn "does not exist" msg then
        match env.createStack with
        | .ok => deployWait env name false true
        | _ => ⟨name, false, true, [], false⟩
      else ⟨name, false, false, [], false⟩
  | .otherError => ⟨name, false, false, [], false⟩

/-!
## `upload_files` (source lines 390–441)
-/

/-- One file met by the `os.walk` traversal: its S3 key (relative path with
separators normalised), the bare file name passed to `get_content_type`, and
whether `s3.upload_file` succeeds on it. -/
structure FileSpec where
  key : String
  name : String
  ok : Bool
deriving DecidableEq, Repr

/-- Environment of one `upload_files` run.  `outputs` is the dictionary
`get_stack_outputs` returns (empty when `describe_stacks` fails there);
`now` is `int(time.time())` at the invalidation call. -/
structure UploadEnv where
  folderExists : Bool
  files : List FileSpec
  outputs : List (String × String)
  invalidationOk : Bool
  now : Nat

/-- One `cloudfront.create_invalidation` request as the code builds it. -/
structure InvalidationRequest where
  distributionId : String
  pathsQuantity : Nat
  pathsItems : List String
  callerReference : String
deriving DecidableEq, Repr

/-- Trace and return value of one `upload_files` run: `uploaded` lists the
`(key, ContentType)` pairs actually transferred, in order. -/
structure UploadResult where
  success : Bool
  uploaded : List (String × String)
  invalidations : List InvalidationRequest
deriving DecidableEq, Repr

/-- The upload loop: transfers files in traversal order; the first raising
upload aborts the rest (second component `true` means an exception escaped to
the `except` clause). -/
def uploadLoop : List FileSpec → List (String × String) × Bool
  | [] => ([], false)
  | f :: rest =>
      if f.ok then
        let r := uploadLoop rest
        ((f.key, get_content_type f.name) :: r.1, r.2)
      else ([], true)

/-- Model of `upload_files`: missing folder returns `False` up front; then the upload
loop; then, only when `outputs.get('CloudFrontDistributionId')` is truthy
(present and non-empty), one invalidation request with path list `['/*']`
(Quantity 1) and `str(int(time.time()))` as `CallerReference`.  Any exception
(upload or invalidation) is caught and turns the run into `return False`;
nothing uploaded is rolled back. -/
def upload_files (env : UploadEnv) : UploadResult :=
  if env.folderExists = false then ⟨false, [], []⟩
  else
    let r := uploadLoop env.files
    if r.2 then ⟨false, r.1, []⟩
    else
      match env.outputs.lookup "CloudFrontDistributionId" with
      | some d =>
          if d = "" then ⟨true, r.1, []⟩
          else ⟨env.invalidationOk, r.1, [⟨d, 1, ["/*"], toString env.now⟩]⟩
      | none => ⟨true, r.1, []⟩

/-!
## `empty_s3_buckets` (source lines 601–632) and `cleanup_stack` (562–599)
-/

/-- Outcome of the per-bucket body (`head_bucket`, paginated listing, batched
`delete_objects`): normal completion with the listed pages of object keys, or
a `ClientError` with the error code the handler reads
(`e.response['Error']['Code']`). -/
inductive S3Outcome where
  | ok (pages : List (List String))
  | clientError (code : String)
deriving DecidableEq, Repr

/-- What `empty_s3_buckets` did to one bucket: emptied it (with the
`delete_objects` batches issued, one per page that has `Contents`), skipped it
as a benign 404, or printed a warning for any other `ClientError` and moved
on. -/
inductive EmptyResult where
  | emptied (deletedBatches : List (List String))
  | skippedNotFound
  | warned (code : String)
deriving DecidableEq, Repr

/-- Per-bucket handler of `empty_s3_buckets`. -/
def emptyOne : S3Outcome → EmptyResult
  | .ok pages => .emptied (pages.filter (fun p => p ≠ []))
  | .clientError code =>
      if code = "404" then .skippedNotFound else .warned code

/-- Model of `empty_s3_buckets`: iterates over `[domain, f"www.{domain}"]`; never fails
the operation — every error path only prints. -/
def empty_s3_buckets (primary www : S3Outcome) : List EmptyResult :=
  [emptyOne primary, emptyOne www]

/-- Environment of one `cleanup_stack` run. -/
structure CleanupEnv where
  primaryBucket : S3Outcome
  wwwBucket : S3Outcome
  describeStacks : CallOutcome
  deleteStack : CallOutcome
  poll : Nat → PollStatus

/-- How a Python call ends: a returned value, or an exception that no handler
catches (it then propagates out of the function). -/
inductive PyResult where
  | returned (b : Bool)
  | raised
deriving DecidableEq, Repr

/-- Trace and outcome of one `cleanup_stack` run. -/
structure CleanupResult where
  stackNameUsed : String
  bucketResults : List EmptyResult
  deleteSubmitted : Bool
  waiterCalls : List (Nat × Nat)
  outcome : PyResult
deriving DecidableEq, Repr

/-- Model of `cleanup_stack`: empty the buckets first, then describe/delete/wait inside
a `try` whose only handler is `except ClientError`: a `ClientError` message
containing `'does not exist'` returns `True` (benign), any other `ClientError`
returns `False`, and any other exception — including the waiter's
`WaiterError` on timeout or terminal failure — propagates uncaught.  The
delete waiter uses Delay 30, MaxAttempts 60. -/
def cleanup_stack (domain : String) (env : CleanupEnv) : CleanupResult :=
  let name := get_stack_name domain
  let bres := empty_s3_buckets env.primaryBucket env.wwwBucket
  match env.describeStacks with
  | .ok =>
      match env.deleteStack with
      | .ok =>
          match (waiterRun env.poll 60).1 with
          | .ok => ⟨name, bres, true, [(30, 60)], .returned true⟩
          | _ => ⟨name, bres, true, [(30, 60)], .raised⟩
      | .clientError msg =>
          if pyIn "does not exist" msg then ⟨name, bres, true, [], .returned true⟩
          else ⟨name, bres, true, [], .returned false⟩
      | .otherError => ⟨name, bres, true, [], .raised⟩
  | .clientError msg =>
      if pyIn "does not exist" msg then ⟨name, bres, false, [], .returned true⟩
      else ⟨name, bres, false, [], .returned false⟩
  | .otherError => ⟨name, bres, false, [], .raised⟩

/-!
## `create_sample_website` (source lines 463–560) and the upload step of
`main` for the deploy command (source lines 729–735)
-/

/-- The literal chunk of the sample-page f-string before the first `{domain}`
interpolation. -/
def samplePart1 : String :=
  "<!DOCTYPE html>\n<html lang=\"en\">\n<head>\n    <meta charset=\"UTF-8\">\n" ++
  "    <meta name=\"viewport\" content=\"width=device-width, initial-scale=1.0\">\n" ++
  "    <title>Welcome to "

/-- The literal chunk between the two `{domain}` interpolations (the `{{`/`}}`
escapes of the f-string render as single braces). -/
def samplePart2 : String :=
  "</title>\n    <style>\n        body \x7b\n" ++
  "            font-family: -apple-system, BlinkMacSystemFont, \x27Segoe UI\x27, Roboto, sans-serif;\n" ++
  "            line-height: 1.6;\n            margin: 0;\n            padding: 0;\n" ++
  "            background: linear-gradient(135deg, #667eea 0%, #764ba2 100%);\n" ++
  "            min-height: 100vh;\n            display: flex;\n            align-items: center;\n" ++
  "            justify-content: center;\n        \x7d\n        .container \x7b\n" ++
  "            background: white;\n            padding: 2rem;\n            border-radius: 10px;\n" ++
  "            box-shadow: 0 10px 30px rgba(0,0,0,0.1);\n            text-align: center;\n" ++
  "            max-width: 600px;\n            margin: 1rem;\n        \x7d\n        h1 \x7b\n" ++
  "            color: #333;\n            margin-bottom: 1rem;\n        \x7d\n        .emoji \x7b\n" ++
  "            font-size: 3rem;\n            margin-bottom: 1rem;\n        \x7d\n        .info \x7b\n" ++
  "            background: #f8f9fa;\n            padding: 1rem;\n            border-radius: 5px;\n" ++
  "            margin: 1rem 0;\n        \x7d\n        .badge \x7b\n            display: inline-block;\n" ++
  "            background: #28a745;\n            color: white;\n            padding: 0.25rem 0.5rem;\n" ++
  "            border-radius: 3px;\n            font-size: 0.8rem;\n            margin: 0.2rem;\n" ++
  "        \x7d\n        .python-badge \x7b\n            background: #3776ab;\n            color: white;\n" ++
  "            padding: 0.5rem 1rem;\n            border-radius: 5px;\n            margin: 1rem 0;\n" ++
  "            display: inline-block;\n        \x7d\n    </style>\n</head>\n<body>\n" ++
  "    <div class=\"container\">\n        <div class=\"emoji\">🚀</div>\n        <h1>Welcome to "

/-- The literal chunk of the sample-page f-string after the second `{domain}`
interpolation. -/
def samplePart3 : String :=
  "</h1>\n        <p>Your website is now live on AWS!</p>\n        \n" ++
  "        <div class=\"info\">\n            <h3>Powered by:</h3>\n" ++
  "            <span class=\"badge\">Amazon S3</span>\n" ++
  "            <span class=\"badge\">CloudFront CDN</span>\n" ++
  "            <span class=\"badge\">Route53 DNS</span>\n" ++
  "            <span class=\"badge\">SSL Certificate</span>\n        </div>\n        \n" ++
  "        <div class=\"python-badge\">\n            🐍 Deployed with Python Script\n        </div>\n" ++
  "        \n        <p>Replace this file with your own <code>index.html</code> to get started.</p>\n" ++
  "        <p><small>Deployed with AWS Static Website Deployer (Python)</small></p>\n" ++
  "    </div>\n</body>\n</html>"

/-- Model of `html_content`: the f-string of `create_sample_website` with `domain`
interpolated twice (page title and heading). -/
def sampleHtml (domain : String) : String :=
  samplePart1 ++ domain ++ samplePart2 ++ domain ++ samplePart3

/-- The upload-side environment `create_sample_website` still depends on (its
own temporary folder always exists and holds exactly the one file it wrote). -/
structure SampleEnv where
  s3ok : Bool
  outputs : List (String × String)
  invalidationOk : Bool
  now : Nat

/-- Trace of one `create_sample_website` run: the files written into the
temporary directory and the result of the `upload_files` call on it. -/
structure SampleResult where
  writtenFiles : List (String × String)
  upload : UploadResult

/-- Model of `create_sample_website`: write `index.html` with the rendered f-string
into a fresh temporary directory, then hand that directory to the ordinary
`upload_files` path. -/
def create_sample_website (domain : String) (env : SampleEnv) : SampleResult :=
  let content := sampleHtml domain
  ⟨[("index.html", content)],
   upload_files ⟨true, [⟨"index.html", "index.html", env.s3ok⟩], env.outputs,
                 env.invalidationOk, env.now⟩⟩

/-- Which branch the deploy command of `main` takes after the stack deploy
succeeds. -/
inductive UploadStepTrace where
  | userFolder (r : UploadResult)
  | sample (r : SampleResult)

/-- The file-upload step of `main`'s deploy command: with `--website-folder`
it calls `upload_files` on that folder, without it it calls
`create_sample_website`. -/
def mainUploadStep (domain : String) (websiteFolder : Option String)
    (folderExists : Bool) (files : List FileSpec) (env : SampleEnv) :
    UploadStepTrace :=
  match websiteFolder with
  | some _ =>
      .userFolder (upload_files ⟨folderExists, files, env.outputs,
                                 env.invalidationOk, env.now⟩)
  | none => .sample (create_sample_website domain env)

/-!
## Shapes written from the specification text, for comparison with the code
-/

/-- Spec shape of the label: `minLen`–63 alphanumeric/hyphen characters,
neither starting nor ending with a hyphen.  The claim states `minLen = 2`. -/
def specLabelOk (minLen : Nat) (label : List Char) : Prop :=
  minLen ≤ label.length ∧ label.length ≤ 63 ∧
  (∀ c ∈ label, isLabelChar c = true) ∧
  label.head? ≠ some '-' ∧ label.getLast? ≠ some '-'

/-- Spec shape of a whole accepted string: one label, a dot, a TLD of 2 or
more letters. -/
def specShapeCore (minLen : Nat) (cs : List Char) : Prop :=
  ∃ label tld, cs = label ++ '.' :: tld ∧ specLabelOk minLen label ∧
    2 ≤ tld.length ∧ ∀ c ∈ tld, c.isAlpha = true

/-- The shape exactly as the claim states it (label of 2–63 characters, and
nothing outside the shape accepted). -/
def specDomainShapeClaim (s : String) : Prop := specShapeCore 2 s.toList

/-- The amended shape: the label needs at least 3 characters, and a single
trailing newline is tolerated (Python `$` matches before it). -/
def specDomainShapeAmended (s : String) : Prop :=
  specShapeCore 3 s.toList ∨
    ∃ cs, s.toList = cs ++ ['\n'] ∧ specShapeCore 3 cs

end AWSWebsiteDeployer

namespace AWSWebsiteDeployer

/-! ## Helper lemmas about the character classes and the regex matcher -/

theorem isLabelChar_ne_dot {c : Char} (h : isLabelChar c = true) :
    (c != '.') = true := by
  rcases eq_or_ne c '.' with rfl | hne
  · exact absurd h (by decide)
  · simpa using hne

theorem isAlnum_ne_dash {c : Char} (h : isAlnum c = true) : c ≠ '-' := by
  rintro rfl
  exact absurd h (by decide)

theorem isAlnum_of_isLabelChar {c : Char} (h : isLabelChar c = true)
    (hne : c ≠ '-') : isAlnum c = true := by
  rcases Bool.or_eq_true_iff.mp h with h1 | h1
  · exact h1
  · exact absurd (by simpa using h1) hne

theorem takeWhile_dropWhile_label {label : List Char} (tld : List Char)
    (h : ∀ c ∈ label, (c != '.') = true) :
    (label ++ '.' :: tld).takeWhile (fun c => c != '.') = label ∧
    (label ++ '.' :: tld).dropWhile (fun c => c != '.') = '.' :: tld := by
  induction label with
  | nil => simp
  | cons a l ih =>
      have ha : (a != '.') = true := h a (List.mem_cons_self a l)
      have ih2 := ih (fun c hc => h c (List.mem_cons_of_mem a hc))
      simp [List.takeWhile_cons, List.dropWhile_cons, ha, ih2.1, ih2.2]

theorem dropLast_concat_of_getLast? :
    ∀ {l : List Char} {c : Char}, l.getLast? = some c → l.dropLast ++ [c] = l := by
  intro l
  induction l with
  | nil => intro c h; simp at h
  | cons a t ih =>
      intro c h
      cases t with
      | nil =>
          simp [List.getLast?] at h
          simp [h]
      | cons b t2 =>
          have h2 : (b :: t2).getLast? = some c := by
            simpa [List.getLast?_cons_cons] using h
          have := ih h2
          simpa [List.dropLast_cons₂] using this

/-- The regex body matcher agrees with the spec shape with label length ≥ 3. -/
theorem validDomainCore_iff (cs : List Char) :
    validDomainCore cs = true ↔ specShapeCore 3 cs := by
  constructor
  · intro h
    unfold validDomainCore at h
    split at h
    case _ tld heq =>
      set label := cs.takeWhile (fun c => c != '.') with hlabel
      simp only [Bool.and_eq_true, decide_eq_true_eq, List.all_eq_true] at h
      obtain ⟨⟨⟨⟨⟨⟨h3, h63⟩, hchars⟩, hhead⟩, hlast⟩, htld2⟩, htldall⟩ := h
      have hcs : cs = label ++ '.' :: tld := by
        conv_lhs => rw [← List.takeWhile_append_dropWhile (fun c => c != '.') cs]
        rw [heq]
      obtain ⟨c0, hc0, hc0a⟩ : ∃ c0, label.head? = some c0 ∧ isAlnum c0 = true := by
        cases hh : label.head? with
        | none => rw [hh] at hhead; exact absurd hhead (by simp)
        | some c0 => rw [hh] at hhead; exact ⟨c0, rfl, hhead⟩
      obtain ⟨c1, hc1, hc1a⟩ : ∃ c1, label.getLast? = some c1 ∧ isAlnum c1 = true := by
        cases hh : label.getLast? with
        | none => rw [hh] at hlast; exact absurd hlast (by simp)
        | some c1 => rw [hh] at hlast; exact ⟨c1, rfl, hlast⟩
      refine ⟨label, tld, hcs, ⟨h3, h63, hchars, ?_, ?_⟩, htld2, htldall⟩
      · rw [hc0]; intro hcon
        exact isAlnum_ne_dash hc0a (Option.some.inj hcon)
      · rw [hc1]; intro hcon
        exact isAlnum_ne_dash hc1a (Option.some.inj hcon)
    case _ => exact absurd h (by simp)
  · rintro ⟨label, tld, hcs, ⟨h3, h63, hchars, hhead, hlast⟩, htld2, htldall⟩
    have hne : ∀ c ∈ label, (c != '.') = true :=
      fun c hc => isLabelChar_ne_dot (hchars c hc)
    obtain ⟨ht, hd⟩ := takeWhile_dropWhile_label tld hne
    subst hcs
    unfold validDomainCore
    rw [hd, ht]
    obtain ⟨c0, t0, rfl⟩ : ∃ c0 t0, label = c0 :: t0 := by
      cases label with
      | nil => simp at h3
      | cons c0 t0 => exact ⟨c0, t0, rfl⟩
    obtain ⟨c1, hc1⟩ : ∃ c1, (c0 :: t0).getLast? = some c1 := by
      cases hh : (c0 :: t0).getLast? with
      | none => simp at hh
      | some c1 => exact ⟨c1, rfl⟩
    have hc0mem : c0 ∈ c0 :: t0 := List.mem_cons_self c0 t0
    have hc1mem : c1 ∈ c0 :: t0 := by
      obtain ⟨ys, hys⟩ := List.getLast?_eq_some_iff.mp hc1
      rw [hys]
      exact List.mem_append_right ys (List.mem_singleton.mpr rfl)
    have hch : isAlnum c0 = true :=
      isAlnum_of_isLabelChar (hchars c0 hc0mem)
        (by intro hcon; exact hhead (by simp [hcon]))
    have hcl : isAlnum c1 = true :=
      isAlnum_of_isLabelChar (hchars c1 hc1mem)
        (by intro hcon; exact hlast (by simp [← hcon, hc1, hcon]))
    simp only [hc1, List.head?_cons, Bool.and_eq_true, decide_eq_true_eq,
      List.all_eq_true]
    exact ⟨⟨⟨⟨⟨⟨h3, h63⟩, hchars⟩, hch⟩, hcl⟩, htld2⟩, htldall⟩

/-- The full validator agrees with the amended shape. -/
theorem validate_domain_iff (s : String) :
    validate_domain s = true ↔ specDomainShapeAmended s := by
  unfold validate_domain specDomainShapeAmended
  rw [Bool.or_eq_true, validDomainCore_iff]
  constructor
  · rintro (h | h)
    · exact Or.inl h
    · right
      split at h
      case _ c hlast =>
        simp only [Bool.and_eq_true, beq_iff_eq] at h
        obtain ⟨rfl, hcore⟩ := h
        exact ⟨s.toList.dropLast, (dropLast_concat_of_getLast? hlast).symm,
          (validDomainCore_iff _).mp hcore⟩
      case _ => exact absurd h (by simp)
  · rintro (h | ⟨cs, hcs, hcore⟩)
    · exact Or.inl h
    · right
      rw [hcs]
      have hl : (cs ++ ['\n']).getLast? = some '\n' := by
        simp [List.getLast?_concat]
      rw [hl]
      simp only [beq_self_eq_true, Bool.true_and]
      rw [List.dropLast_concat]
      exact (validDomainCore_iff _).mpr hcore

/-! ## Claim C1 -/

/-- Claim C1, as frozen, is false on the code: the regex
`^[a-zA-Z0-9][a-zA-Z0-9-]{1,61}[a-zA-Z0-9]\.[a-zA-Z]{2,}$` needs a label of
at least 3 characters, so `ab.co` (label of length 2, inside the claim's
"2–63" shape) is rejected; and Python's `$` matches before a trailing
newline, so `"example.com\n"` (outside the claim's shape) is accepted. -/
theorem C1_domain_validator_counterexample :
    validate_domain "ab.co" = false ∧ specDomainShapeClaim "ab.co" ∧
    validate_domain "example.com\n" = true ∧
    ¬ specDomainShapeClaim "example.com\n" := by
  refine ⟨by decide, ?_, by decide, ?_⟩
  · refine ⟨['a', 'b'], ['c', 'o'], by decide, ?_, by decide, by decide⟩
    unfold specLabelOk
    refine ⟨by decide, by decide, by decide, by decide, by decide⟩
  · rintro ⟨label, tld, heq, ⟨h2, h63, hchars, hh, hl⟩, ht2, hta⟩
    have hne : ∀ c ∈ label, (c != '.') = true :=
      fun c hc => isLabelChar_ne_dot (hchars c hc)
    obtain ⟨ht, hd⟩ := takeWhile_dropWhile_label tld hne
    have hdrop : ("example.com\n".toList).dropWhile (fun c => c != '.') =
        '.' :: tld := by rw [heq]; exact hd
    have htld : tld = ['c', 'o', 'm', '\n'] := by
      have h3 : ('.' :: ['c', 'o', 'm', '\n'] : List Char) = '.' :: tld := by
        calc ('.' :: ['c', 'o', 'm', '\n'] : List Char)
            = ("example.com\n".toList).dropWhile (fun c => c != '.') := by decide
          _ = '.' :: tld := hdrop
      exact ((List.cons.inj h3).2).symm
    have hmem : '\n' ∈ tld := by rw [htld]; decide
    exact absurd (hta '\n' hmem) (by decide)

/-- Claim C1 (amended): the validator accepts a string exactly when it is one
label of 3–63 alphanumeric/hyphen characters neither starting nor ending with
a hyphen, a dot, and a TLD of 2 or more letters — optionally followed by one
trailing newline; it accepts `example.com` and `my-site.co` and rejects
`-bad.com`, `bad-.com`, `nodot` and `a.c`. -/
theorem C1_domain_validator :
    (∀ s, validate_domain s = true ↔ specDomainShapeAmended s) ∧
    validate_domain "example.com" = true ∧ validate_domain "my-site.co" = true ∧
    validate_domain "-bad.com" = false ∧ validate_domain "bad-.com" = false ∧
    validate_domain "nodot" = false ∧ validate_domain "a.c" = false :=
  ⟨validate_domain_iff, by decide, by decide, by decide, by decide, by decide,
   by decide⟩

/-- Witness for C1: the equivalence applied at a concrete accepted input. -/
theorem C1_domain_validator_witness :
    specDomainShapeAmended "my-site.co" :=
  (C1_domain_validator.1 "my-site.co").mp (by decide)

/-! ## Claims C9 and C8 -/

/-- Single-character `str.replace` is the character-wise map. -/
theorem pyReplaceChar_eq_map (old new : Char) (l : List Char) :
    pyReplaceChar old new l = l.map (fun c => if c = old then new else c) := by
  induction l with
  | nil => rfl
  | cons a t ih =>
      by_cases h : a = old <;> simp [pyReplaceChar, h, ih]

/-- Claim C9: stack-name derivation is a pure function of the domain — the
domain with every `.` replaced by `-`, prefixed with `website-`; in
particular `example.com ↦ website-example-com`. -/
theorem C9_stack_name :
    (∀ domain : String, get_stack_name domain =
      "website-" ++ String.mk (domain.toList.map
        (fun c => if c = '.' then '-' else c))) ∧
    get_stack_name "example.com" = "website-example-com" :=
  ⟨fun domain => by rw [get_stack_name, pyReplaceChar_eq_map], by decide⟩

/-- Claim C8: content-type inference is a total function of the extension via
the fixed table, defaulting to the generic binary type; the three listed
examples hold. -/
theorem C8_content_type :
    get_content_type "index.html" = "text/html" ∧
    get_content_type "style.css" = "text/css" ∧
    get_content_type "photo.unknownext" = "binary/octet-stream" ∧
    (∀ f g, splitextExt f = splitextExt g →
      get_content_type f = get_content_type g) ∧
    (∀ f, contentTypes.lookup (pyLower (splitextExt f)) = none →
      get_content_type f = "binary/octet-stream") := by
  refine ⟨by decide, by decide, by decide, ?_, ?_⟩
  · intro f g h
    unfold get_content_type
    rw [h]
  · intro f h
    unfold get_content_type
    simp only []
    rw [h]
    rfl

/-- Witness for C8: the extension-functionality and the default case at
concrete file names. -/
theorem C8_content_type_witness :
    get_content_type "a.png" = get_content_type "b.png" ∧
    get_content_type "photo.xyz" = "binary/octet-stream" :=
  ⟨C8_content_type.2.2.2.1 "a.png" "b.png" (by decide),
   C8_content_type.2.2.2.2 "photo.xyz" (by decide)⟩

/-! ## Claim C4 -/

/-- Claim C4: the existence probe describes the stack by its derived name;
a "does not exist" client error routes to a create-stack submission, a
successful describe routes to an update-stack submission, and any other
error (client error without that message, or a non-client exception) makes
the deployment report failure with neither create nor update submitted. -/
theorem C4_existence_probe :
    (∀ domain env, (deploy_stack domain env).stackNameUsed =
      get_stack_name domain) ∧
    (∀ domain env msg, env.describeStacks = CallOutcome.clientError msg →
      pyIn "does not exist" msg = true →
      (deploy_stack domain env).submittedCreate = true) ∧
    (∀ domain env, env.describeStacks = CallOutcome.ok →
      (deploy_stack domain env).submittedUpdate = true) ∧
    (∀ domain env msg, env.describeStacks = CallOutcome.clientError msg →
      pyIn "does not exist" msg = false →
      (deploy_stack domain env).submittedCreate = false ∧
      (deploy_stack domain env).submittedUpdate = false ∧
      (deploy_stack domain env).success = false) ∧
    (∀ domain env, env.describeStacks = CallOutcome.otherError →
      (deploy_stack domain env).submittedCreate = false ∧
      (deploy_stack domain env).submittedUpdate = false ∧
      (deploy_stack domain env).success = false) := by
  refine ⟨?_, ?_, ?_, ?_, ?_⟩
  · intro domain env
    unfold deploy_stack
    cases env.describeStacks with
    | ok =>
        cases env.updateStack with
        | ok => unfold deployWait; cases (waiterRun env.poll 120).1 <;> rfl
        | clientError m =>
            by_cases hp : pyIn "does not exist" m = true
            · simp only [hp, if_true]
              cases env.createStack with
              | ok => unfold deployWait; cases (waiterRun env.poll 120).1 <;> rfl
              | clientError m2 => rfl
              | otherError => rfl
            · simp only [Bool.not_eq_true] at hp
              simp only [hp, Bool.false_eq_true, if_false]
        | otherError => rfl
    | clientError m =>
        by_cases hp : pyIn "does not exist" m = true
        · simp only [hp, if_true]
          cases env.createStack with
          | ok => unfold deployWait; cases (waiterRun env.poll 120).1 <;> rfl
          | clientError m2 => rfl
          | otherError => rfl
        · simp only [Bool.not_eq_true] at hp
          simp only [hp, Bool.false_eq_true, if_false]
    | otherError => rfl
  · intro domain env msg hd hp
    unfold deploy_stack
    rw [hd]
    simp only [hp, if_true]
    cases env.createStack with
    | ok => unfold deployWait; cases (waiterRun env.poll 120).1 <;> rfl
    | clientError m2 => rfl
    | otherError => rfl
  · intro domain env hd
    unfold deploy_stack
    rw [hd]
    cases env.updateStack with
    | ok => unfold deployWait; cases (waiterRun env.poll 120).1 <;> rfl
    | clientError m =>
        by_cases hp : pyIn "does not exist" m = true
        · simp only [hp, if_true]
          cases env.createStack with
          | ok => unfold deployWait; cases (waiterRun env.poll 120).1 <;> rfl
          | clientError m2 => rfl
          | otherError => rfl
        · simp only [Bool.not_eq_true] at hp
          simp only [hp, Bool.false_eq_true, if_false]
    | otherError => rfl
  · intro domain env msg hd hp
    unfold deploy_stack
    rw [hd]
    simp [hp]
  · intro domain env hd
    unfold deploy_stack
    rw [hd]
    exact ⟨rfl, rfl, rfl⟩

/-- Witness for C4: the three routes at concrete environments. -/
theorem C4_existence_probe_witness :
    (deploy_stack "example.com"
      ⟨CallOutcome.clientError "Stack with id website-example-com does not exist",
       CallOutcome.ok, CallOutcome.ok, fun _ => PollStatus.pending⟩).submittedCreate
      = true ∧
    (deploy_stack "example.com"
      ⟨CallOutcome.ok, CallOutcome.ok, CallOutcome.ok,
       fun _ => PollStatus.pending⟩).submittedUpdate = true ∧
    (deploy_stack "example.com"
      ⟨CallOutcome.clientError "AccessDenied", CallOutcome.ok, CallOutcome.ok,
       fun _ => PollStatus.pending⟩).success = false ∧
    (deploy_stack "example.com"
      ⟨CallOutcome.otherError, CallOutcome.ok, CallOutcome.ok,
       fun _ => PollStatus.pending⟩).success = false :=
  ⟨C4_existence_probe.2.1 "example.com" _ _ rfl (by decide),
   C4_existence_probe.2.2.1 "example.com" _ rfl,
   (C4_existence_probe.2.2.2.1 "example.com" _ _ rfl (by decide)).2.2,
   (C4_existence_probe.2.2.2.2 "example.com" _ rfl).2.2⟩

/-! ## Claim C5 -/

/-- The waiter performs at most `fuel` polls. -/
theorem waiterGo_polls_le (poll : Nat → PollStatus) :
    ∀ (fuel i : Nat), (waiterGo poll i fuel).2 ≤ fuel := by
  intro fuel
  induction fuel with
  | zero => intro i; exact Nat.le_refl 0
  | succ n ih =>
      intro i
      unfold waiterGo
      cases poll i with
      | success => exact Nat.succ_le_succ (Nat.zero_le n)
      | failed => exact Nat.succ_le_succ (Nat.zero_le n)
      | pending => exact Nat.succ_le_succ (ih (i + 1))

/-- The waiter only returns normally when some poll within the ceiling
reported the terminal success status. -/
theorem waiterGo_ok_exists {poll : Nat → PollStatus} :
    ∀ (fuel i : Nat), (waiterGo poll i fuel).1 = WaitOutcome.ok →
      ∃ j, i ≤ j ∧ j < i + fuel ∧ poll j = PollStatus.success := by
  intro fuel
  induction fuel with
  | zero => intro i h; exact absurd h (by simp [waiterGo])
  | succ n ih =>
      intro i h
      unfold waiterGo at h
      cases hp : poll i with
      | success =>
          exact ⟨i, Nat.le_refl i, Nat.lt_add_of_pos_right (Nat.succ_pos n), hp⟩
      | failed => rw [hp] at h; exact absurd h (by simp)
      | pending =>
          rw [hp] at h
          obtain ⟨j, h1, h2, h3⟩ := ih (i + 1) h
          exact ⟨j, Nat.le_of_succ_le h1,
            by omega, h3⟩

/-- If no poll within the ceiling reports success, the waiter raises. -/
theorem waiterRun_not_ok {poll : Nat → PollStatus} {fuel : Nat}
    (h : ∀ i, i < fuel → poll i ≠ PollStatus.success) :
    (waiterRun poll fuel).1 ≠ WaitOutcome.ok := by
  intro hok
  obtain ⟨j, _, hj, hs⟩ := waiterGo_ok_exists fuel 0 hok
  exact h j (by omega) hs

/-- Every waiter call a deploy run makes carries `(Delay, MaxAttempts)
= (30, 120)`. -/
theorem deploy_waiterCalls (domain : String) (env : DeployEnv) :
    (deploy_stack domain env).waiterCalls = [] ∨
    (deploy_stack domain env).waiterCalls = [(30, 120)] := by
  unfold deploy_stack deployWait
  repeat' split
  all_goals simp

/-- Every waiter call a cleanup run makes carries `(Delay, MaxAttempts)
= (30, 60)`. -/
theorem cleanup_waiterCalls (domain : String) (env : CleanupEnv) :
    (cleanup_stack domain env).waiterCalls = [] ∨
    (cleanup_stack domain env).waiterCalls = [(30, 60)] := by
  unfold cleanup_stack
  repeat' split
  all_goals simp

/-- Claim C5: every completion wait is configured with a 30-second delay
and a ceiling of 120 attempts (create/update) or 60 attempts (delete); the
waiter performs at most the ceiling's number of polls; and when the service
never reports the terminal success status within the ceiling — or reports a
terminal failure — the deploy run returns failure and the cleanup run ends
in the uncaught `WaiterError` (a fatal error surfaced to the operator). -/
theorem C5_polling :
    (∀ domain env, ∀ wc ∈ (deploy_stack domain env).waiterCalls,
      wc = (30, 120)) ∧
    (∀ domain env, ∀ wc ∈ (cleanup_stack domain env).waiterCalls,
      wc = (30, 60)) ∧
    (∀ (poll : Nat → PollStatus) (fuel : Nat), (waiterRun poll fuel).2 ≤ fuel) ∧
    (∀ domain env, (∀ i, i < 120 → env.poll i ≠ PollStatus.success) →
      (deploy_stack domain env).success = false) ∧
    (∀ domain env, env.describeStacks = CallOutcome.ok →
      env.deleteStack = CallOutcome.ok →
      (∀ i, i < 60 → env.poll i ≠ PollStatus.success) →
      (cleanup_stack domain env).outcome = PyResult.raised) := by
  refine ⟨?_, ?_, fun poll fuel => waiterGo_polls_le poll fuel 0, ?_, ?_⟩
  · intro domain env wc hwc
    rcases deploy_waiterCalls domain env with h | h
    · rw [h] at hwc; exact absurd hwc (List.not_mem_nil wc)
    · rw [h] at hwc; simpa using hwc
  · intro domain env wc hwc
    rcases cleanup_waiterCalls domain env with h | h
    · rw [h] at hwc; exact absurd hwc (List.not_mem_nil wc)
    · rw [h] at hwc; simpa using hwc
  · intro domain env h
    have hnot := waiterRun_not_ok h
    unfold deploy_stack
    cases env.describeStacks with
    | ok =>
        cases env.updateStack with
        | ok =>
            unfold deployWait
            cases hw : (waiterRun env.poll 120).1 with
            | ok => exact absurd hw hnot
            | errFailure => rfl
            | errTimeout => rfl
        | clientError m =>
            by_cases hp : pyIn "does not exist" m = true
            · simp only [hp, if_true]
              cases env.createStack with
              | ok =>
                  unfold deployWait
                  cases hw : (waiterRun env.poll 120).1 with
                  | ok => exact absurd hw hnot
                  | errFailure => rfl
                  | errTimeout => rfl
              | clientError m2 => rfl
              | otherError => rfl
            · simp only [Bool.not_eq_true] at hp
              simp only [hp, Bool.false_eq_true, if_false]
        | otherError => rfl
    | clientError m =>
        by_cases hp : pyIn "does not exist" m = true
        · simp only [hp, if_true]
          cases env.createStack with
          | ok =>
              unfold deployWait
              cases hw : (waiterRun env.poll 120).1 with
              | ok => exact absurd hw hnot
              | errFailure => rfl
              | errTimeout => rfl
          | clientError m2 => rfl
          | otherError => rfl
        · simp only [Bool.not_eq_true] at hp
          simp only [hp, Bool.false_eq_true, if_false]
    | otherError => rfl
  · intro domain env hd hdel h
    have hnot := waiterRun_not_ok h
    unfold cleanup_stack
    rw [hd, hdel]
    cases hw : (waiterRun env.poll 60).1 with
    | ok => exact absurd hw hnot
    | errFailure => rfl
    | errTimeout => rfl

/-- Witness for C5: poll-count bound, deploy failure and cleanup raise at a
status stream that never turns terminal. -/
theorem C5_polling_witness :
    (waiterRun (fun _ => PollStatus.pending) 120).2 ≤ 120 ∧
    (deploy_stack "example.com"
      ⟨CallOutcome.ok, CallOutcome.ok, CallOutcome.ok,
       fun _ => PollStatus.pending⟩).success = false ∧
    (cleanup_stack "example.com"
      ⟨S3Outcome.clientError "404", S3Outcome.clientError "404",
       CallOutcome.ok, CallOutcome.ok, fun _ => PollStatus.pending⟩).outcome
      = PyResult.raised :=
  ⟨C5_polling.2.2.1 _ 120,
   C5_polling.2.2.2.1 "example.com" _ (by decide),
   C5_polling.2.2.2.2 "example.com" _ rfl rfl (by decide)⟩

/-! ## Claims C7 and C2 -/

/-- When every upload succeeds, the loop transfers every file in order. -/
theorem uploadLoop_all_ok :
    ∀ {files : List FileSpec}, (∀ f ∈ files, f.ok = true) →
      uploadLoop files =
        (files.map (fun f => (f.key, get_content_type f.name)), false) := by
  intro files
  induction files with
  | nil => intro _; rfl
  | cons f rest ih =>
      intro h
      have hf : f.ok = true := h f (List.mem_cons_self f rest)
      have hr := ih (fun g hg => h g (List.mem_cons_of_mem f hg))
      simp [uploadLoop, hf, hr]

/-- The first failing upload aborts the loop: everything before it is
transferred, nothing after it is. -/
theorem uploadLoop_first_error :
    ∀ (pre : List FileSpec) (bad : FileSpec) (post : List FileSpec),
      (∀ f ∈ pre, f.ok = true) → bad.ok = false →
      uploadLoop (pre ++ bad :: post) =
        (pre.map (fun f => (f.key, get_content_type f.name)), true) := by
  intro pre
  induction pre with
  | nil =>
      intro bad post _ hb
      simp [uploadLoop, hb]
  | cons f rest ih =>
      intro bad post h hb
      have hf : f.ok = true := h f (List.mem_cons_self f rest)
      have hr := ih bad post (fun g hg => h g (List.mem_cons_of_mem f hg)) hb
      simp [uploadLoop, hf, hr]

/-- Claim C7: the first upload error aborts the remaining uploads, what was
already uploaded stays (no rollback — the trace keeps exactly the files
before the failing one), no invalidation is issued, and the run reports
failure. -/
theorem C7_upload_abort (env : UploadEnv) (pre : List FileSpec)
    (bad : FileSpec) (post : List FileSpec)
    (hfe : env.folderExists = true) (hfiles : env.files = pre ++ bad :: post)
    (hpre : ∀ f ∈ pre, f.ok = true) (hbad : bad.ok = false) :
    upload_files env =
      ⟨false, pre.map (fun f => (f.key, get_content_type f.name)), []⟩ := by
  unfold upload_files
  rw [hfe, hfiles, uploadLoop_first_error pre bad post hpre hbad]
  simp

/-- Witness for C7: a concrete three-file run failing on the second file. -/
theorem C7_upload_abort_witness :
    upload_files ⟨true,
      [⟨"a.html", "a.html", true⟩, ⟨"b.css", "b.css", false⟩,
       ⟨"c.js", "c.js", true⟩],
      [("CloudFrontDistributionId", "E1")], true, 5⟩ =
    ⟨false, [("a.html", "text/html")], []⟩ := by
  rw [C7_upload_abort _ [⟨"a.html", "a.html", true⟩] ⟨"b.css", "b.css", false⟩
    [⟨"c.js", "c.js", true⟩] rfl rfl (by decide) rfl]
  decide

/-- Claim C2, as frozen, is false on the code: here is an upload run in which
the single file upload succeeds and the run reports success, yet no
invalidation is issued, because the stack outputs carry no
`CloudFrontDistributionId` (for instance when `get_stack_outputs` failed and
returned the empty dictionary). -/
theorem C2_invalidation_counterexample :
    upload_files ⟨true, [⟨"index.html", "index.html", true⟩], [], true,
      1700000000⟩ =
    ⟨true, [("index.html", "text/html")], []⟩ := by decide

/-- Claim C2 (amended): in an upload run in which all file uploads succeed,
if the stack outputs contain a non-empty `CloudFrontDistributionId` then
exactly one invalidation request is issued against that distribution, with
the single wildcard path `/*` (Quantity 1) and the current timestamp string
as caller reference; if the id is absent or empty, no invalidation is issued
and the run still reports success. -/
theorem C2_invalidation (env : UploadEnv) (hfe : env.folderExists = true)
    (hok : ∀ f ∈ env.files, f.ok = true) :
    (∀ d, env.outputs.lookup "CloudFrontDistributionId" = some d → d ≠ "" →
      (upload_files env).invalidations =
        [⟨d, 1, ["/*"], toString env.now⟩]) ∧
    (env.outputs.lookup "CloudFrontDistributionId" = none →
      (upload_files env).invalidations = [] ∧
      (upload_files env).success = true) ∧
    (env.outputs.lookup "CloudFrontDistributionId" = some "" →
      (upload_files env).invalidations = [] ∧
      (upload_files env).success = true) := by
  unfold upload_files
  rw [hfe, uploadLoop_all_ok hok]
  refine ⟨?_, ?_, ?_⟩
  · intro d hd hne
    rw [hd]
    simp [hne]
  · intro hd
    rw [hd]
    simp
  · intro hd
    rw [hd]
    simp

/-- Witness for C2: a successful run with a present distribution id issues
the single wildcard invalidation. -/
theorem C2_invalidation_witness :
    (upload_files ⟨true, [⟨"index.html", "index.html", true⟩],
      [("CloudFrontDistributionId", "E123")], true, 1700000000⟩).invalidations
      = [⟨"E123", 1, ["/*"], "1700000000"⟩] := by
  rw [(C2_invalidation _ rfl (by decide)).1 "E123" (by decide) (by decide)]
  decide

/-! ## Claims C3 and C6 -/

/-- Claim C3, as frozen, is false on the code: a teardown in which emptying
both buckets fails with a remote-service error that is not "resource not
found" (here code 403) still reports success — `empty_s3_buckets` only
prints a warning for non-404 client errors and never fails the operation. -/
theorem C3_teardown_errors_counterexample :
    cleanup_stack "example.com"
      ⟨S3Outcome.clientError "403", S3Outcome.clientError "403",
       CallOutcome.clientError "Stack with id website-example-com does not exist",
       CallOutcome.ok, fun _ => PollStatus.pending⟩ =
    ⟨"website-example-com",
     [EmptyResult.warned "403", EmptyResult.warned "403"], false, [],
     PyResult.returned true⟩ := by decide

/-- Claim C3 (amended): during stack deletion, a client error is fatal (the
operation reports failure) unless its message contains "does not exist",
which is benign; during bucket emptying no error is fatal: a 404 is treated
as a benign missing bucket and any other client error only produces a
warning — the teardown outcome never depends on the bucket-emptying
outcomes. -/
theorem C3_teardown_errors :
    (∀ code, code ≠ "404" →
      emptyOne (S3Outcome.clientError code) = EmptyResult.warned code) ∧
    (emptyOne (S3Outcome.clientError "404") = EmptyResult.skippedNotFound) ∧
    (∀ domain p1 w1 p2 w2 ds del poll,
      (cleanup_stack domain ⟨p1, w1, ds, del, poll⟩).outcome =
      (cleanup_stack domain ⟨p2, w2, ds, del, poll⟩).outcome) ∧
    (∀ domain env msg, env.describeStacks = CallOutcome.ok →
      env.deleteStack = CallOutcome.clientError msg →
      pyIn "does not exist" msg = false →
      (cleanup_stack domain env).outcome = PyResult.returned false) ∧
    (∀ domain env msg, env.describeStacks = CallOutcome.ok →
      env.deleteStack = CallOutcome.clientError msg →
      pyIn "does not exist" msg = true →
      (cleanup_stack domain env).outcome = PyResult.returned true) ∧
    (∀ domain env msg, env.describeStacks = CallOutcome.clientError msg →
      pyIn "does not exist" msg = false →
      (cleanup_stack domain env).outcome = PyResult.returned false) := by
  refine ⟨?_, by decide, ?_, ?_, ?_, ?_⟩
  · intro code h
    simp [emptyOne, h]
  · intro domain p1 w1 p2 w2 ds del poll
    unfold cleanup_stack
    dsimp only
    repeat' split
    all_goals rfl
  · intro domain env msg hds hdel hp
    unfold cleanup_stack
    rw [hds, hdel]
    simp [hp]
  · intro domain env msg hds hdel hp
    unfold cleanup_stack
    rw [hds, hdel]
    simp [hp]
  · intro domain env msg hds hp
    unfold cleanup_stack
    rw [hds]
    simp [hp]

/-- Witness for C3: a non-404 bucket error is only warned about, and a
delete-stack client error without "does not exist" makes the run report
failure. -/
theorem C3_teardown_errors_witness :
    emptyOne (S3Outcome.clientError "403") = EmptyResult.warned "403" ∧
    (cleanup_stack "example.com"
      ⟨S3Outcome.clientError "404", S3Outcome.ok [], CallOutcome.ok,
       CallOutcome.clientError "Rate exceeded",
       fun _ => PollStatus.pending⟩).outcome = PyResult.returned false :=
  ⟨C3_teardown_errors.1 "403" (by decide),
   C3_teardown_errors.2.2.2.1 "example.com" _ "Rate exceeded" rfl rfl
     (by decide)⟩

/-- Claim C6: a teardown against a domain where neither the stack nor either
bucket exists completes without error and reports success — both buckets are
skipped as benign 404s and the missing stack returns `True`. -/
theorem C6_idempotent_teardown (domain : String) (env : CleanupEnv)
    (msg : String)
    (hp : env.primaryBucket = S3Outcome.clientError "404")
    (hw : env.wwwBucket = S3Outcome.clientError "404")
    (hds : env.describeStacks = CallOutcome.clientError msg)
    (hpy : pyIn "does not exist" msg = true) :
    cleanup_stack domain env =
      ⟨get_stack_name domain,
       [EmptyResult.skippedNotFound, EmptyResult.skippedNotFound], false, [],
       PyResult.returned true⟩ := by
  unfold cleanup_stack empty_s3_buckets
  rw [hp, hw, hds]
  simp [hpy, emptyOne]

/-- Witness for C6: the no-op teardown at a concrete environment. -/
theorem C6_idempotent_teardown_witness :
    cleanup_stack "example.com"
      ⟨S3Outcome.clientError "404", S3Outcome.clientError "404",
       CallOutcome.clientError "Stack with id website-example-com does not exist",
       CallOutcome.ok, fun _ => PollStatus.pending⟩ =
    ⟨"website-example-com",
     [EmptyResult.skippedNotFound, EmptyResult.skippedNotFound], false, [],
     PyResult.returned true⟩ :=
  C6_idempotent_teardown "example.com" _ _ rfl rfl rfl (by decide)

/-! ## Claim C10 -/

/-- Claim C10: when the deploy command runs without a website folder, the
tool writes a single `index.html` (whose content contains the domain name)
into a temporary directory and uploads it through the very same
`upload_files` path used for user files. -/
theorem C10_sample_website :
    (∀ domain folderExists files env,
      mainUploadStep domain none folderExists files env =
        UploadStepTrace.sample (create_sample_website domain env)) ∧
    (∀ domain env, (create_sample_website domain env).writtenFiles =
      [("index.html", sampleHtml domain)]) ∧
    (∀ domain : String, ∃ pre post,
      sampleHtml domain = pre ++ (domain ++ post)) ∧
    (∀ domain env, (create_sample_website domain env).upload =
      upload_files ⟨true, [⟨"index.html", "index.html", env.s3ok⟩],
        env.outputs, env.invalidationOk, env.now⟩) := by
  refine ⟨fun _ _ _ _ => rfl, fun _ _ => rfl, ?_, fun _ _ => rfl⟩
  intro domain
  refine ⟨samplePart1, samplePart2 ++ domain ++ samplePart3, ?_⟩
  unfold sampleHtml
  simp [String.append_assoc]

end AWSWebsiteDeployer

